import Mathlib

/-!
Verification of the adaptive TDEE estimator of this repository
(file app/ai/adaptive_learning.py, class AdaptiveLearningEngine).

The Python code is shallowly embedded: calories and weights become exact
rationals, nullable float columns become Option values, Python float NaN
(produced by numpy when a correlation or a mean is undefined) becomes the
`none` of an Option, and Python `round` (banker's rounding) becomes
`pyRound`.  The one irrational quantity of the code, the standard
deviation `np.std` of the logged calories (line 164), is embedded over
the reals via Real.sqrt; it only ever flows into the confidence score,
never into the estimated TDEE itself.
-/

/-- Python `round` on an exact rational: round half to even. -/
def pyRound (q : ℚ) : ℤ :=
  let f := ⌊q⌋
  let r := q - (f : ℚ)
  if r < 1/2 then f
  else if 1/2 < r then f + 1
  else if f % 2 = 0 then f else f + 1

/-- Python list slice `l[-n:]`: the last `n` elements (all of them when
the list is shorter). -/
def takeLastN (n : ℕ) (l : List α) : List α := l.drop (l.length - n)

/-- numpy `np.mean` on an exact rational list (call sites guarantee the
list is nonempty). -/
def listMean (xs : List ℚ) : ℚ := xs.sum / xs.length

/-- Centered cross-moment sum: the shared numerator and denominators of
the least-squares slope of `np.polyfit(x, y, 1)` and of the Pearson
correlation of `np.corrcoef(x, y)`. -/
def ssum (xs ys : List ℚ) : ℚ :=
  ((xs.zip ys).map (fun p => (p.1 - listMean xs) * (p.2 - listMean ys))).sum

/-- Population variance, the square of numpy's `np.std`. -/
def npVariance (xs : List ℚ) : ℚ :=
  ((xs.map (fun x => (x - listMean xs) ^ 2)).sum) / xs.length

/-- Truthiness of a nullable Python float: `None` and `0` are falsy. -/
def optFalsy (o : Option ℚ) : Bool :=
  match o with
  | none => true
  | some q => q = 0

/-- Truthiness of a nullable Python string: `None` and `""` are falsy. -/
def strFalsy (o : Option String) : Bool :=
  match o with
  | none => true
  | some s => s = ""

/-- Python `x or d` on a nullable string. -/
def strOrDefault (o : Option String) (d : String) : String :=
  match o with
  | none => d
  | some s => if s = "" then d else s

/-- Python `x or d` on a nullable float. -/
def pyOr (o : Option ℚ) (d : ℚ) : ℚ :=
  match o with
  | none => d
  | some v => if v = 0 then d else v

/-! ## Data model (app/models, as consumed by the engine) -/

/-- A row of WeightEntry: calendar date (as an ordinal) and weight in kg. -/
structure WeightEntry where
  date : ℤ
  weight : ℚ
deriving DecidableEq

/-- A row of DailyStats; only `consumed_calories` is read by the engine. -/
structure DailyStats where
  date : ℤ
  consumed_calories : ℚ
deriving DecidableEq

/-- The User columns read or written by the engine (all nullable floats
or strings in the ORM model). -/
structure User where
  age : Option ℚ
  height : Option ℚ
  gender : Option String
  activity_level : Option String
  goal : Option String
  estimated_tdee : Option ℚ
  tdee_confidence : Option ℝ
  adaptive_calories : Option ℚ
  target_calories : Option ℚ

/-- Result record of calculate_adaptive_tdee (dataclass TDEECalculation).
`confidence` is `none` when the Python float would be NaN. -/
structure TDEECalculation where
  estimated_tdee : ℚ
  confidence : Option ℝ
  method : String
  factors : List String
  adjustment_reason : String

/-- Schema AdaptiveGoalsUpdate (the `effective_date` field, filled with
the wall-clock date `date.today()`, is outside the pure embedding). -/
structure AdaptiveGoalsUpdate where
  new_tdee : ℚ
  new_target_calories : ℚ
  confidence : Option ℝ
  adjustment_reason : String

/-! ## Engine constants (AdaptiveLearningEngine.__init__) -/

def min_data_days : ℕ := 14

noncomputable def confidence_threshold : ℝ := 7/10

/-! ## Metabolic baseline (lines 35-62) -/

/-- calculate_bmr: Mifflin-St Jeor, with the 1800 kcal default when age,
height or gender is falsy. -/
def calculate_bmr (u : User) (weight : ℚ) : ℚ :=
  if optFalsy u.age || optFalsy u.height || strFalsy u.gender then 1800
  else if u.gender.getD "" = "male" then
    10 * weight + (25/4) * u.height.getD 0 - 5 * u.age.getD 0 + 5
  else
    10 * weight + (25/4) * u.height.getD 0 - 5 * u.age.getD 0 - 161

/-- get_activity_multiplier: fixed table, default 1.55 on a miss. -/
def get_activity_multiplier (activity_level : String) : ℚ :=
  if activity_level = "sedentary" then 12/10
  else if activity_level = "light" then 1375/1000
  else if activity_level = "moderate" then 155/100
  else if activity_level = "active" then 1725/1000
  else if activity_level = "very_active" then 19/10
  else 155/100

/-- calculate_traditional_tdee (lines 58-62): BMR times the activity
multiplier; `user.activity_level or "moderate"`. -/
def calculate_traditional_tdee (u : User) (current_weight : ℚ) : ℚ :=
  calculate_bmr u current_weight *
    get_activity_multiplier (strOrDefault u.activity_level "moderate")

/-! ## Weight trend estimator (analyze_weight_trend, lines 64-95) -/

/-- Squared Pearson correlation (`abs(np.corrcoef(x, y)[0, 1]) ** 2`) of
the observation index against the values, computed exactly as
sxy^2/(sxx*syy).  `none` models the NaN that numpy returns when one of
the variances is zero (e.g. a window of identical weights). -/
def corrcoef_sq (y : List ℚ) : Option ℚ :=
  let x := (List.range y.length).map (fun i => (i : ℚ))
  let sxx := ssum x x
  let syy := ssum y y
  let sxy := ssum x y
  if sxx * syy = 0 then none else some (sxy ^ 2 / (sxx * syy))

/-- Least-squares slope `np.polyfit(x, y, 1)[0]` of values against the
observation index. -/
def polyfit_slope (y : List ℚ) : ℚ :=
  let x := (List.range y.length).map (fun i => (i : ℚ))
  ssum x y / ssum x x

/-- analyze_weight_trend: weekly weight trend (kg/week) and trend
confidence.  The DataFrame sort on date is modelled by a stable
insertion sort.  The second component is `none` when the Python
confidence would be NaN. -/
def analyze_weight_trend (weight_entries : List WeightEntry)
    (days : ℕ := 14) : ℚ × Option ℚ :=
  if weight_entries.length < 2 then (0, some 0)
  else
    let df := takeLastN days weight_entries
    if df.length < 2 then (0, some 0)
    else
      let sorted := List.insertionSort (fun a b => a.date ≤ b.date) df
      let y := sorted.map (·.weight)
      let slope := polyfit_slope y
      let weekly_trend := slope * 7
      let confidence := if 1 < sorted.length then corrcoef_sq y else some 0
      (weekly_trend, confidence)

/-! ## Adaptive TDEE controller (calculate_adaptive_tdee, lines 97-206) -/

/-- Line 122: days with logged intake (`consumed_calories > 0`). -/
def valid_days_of (stats : List DailyStats) : List DailyStats :=
  stats.filter (fun s => 0 < s.consumed_calories)

/-- Lines 140-151: the energy-balance estimate before smoothing:
`avg_calories + (weight_trend * (n/7) * 7700) / n`. -/
def adaptive_raw_tdee (avg_calories : ℚ) (days_analyzed : ℕ)
    (weight_trend : ℚ) : ℚ :=
  let calories_per_kg : ℚ := 7700
  let weight_change_total := weight_trend * ((days_analyzed : ℚ) / 7)
  let caloric_adjustment := (weight_change_total * calories_per_kg) / days_analyzed
  avg_calories + caloric_adjustment

/-- Lines 164-165: coefficient of variation of the logged calories,
`np.std(...) / avg` guarded by `if avg > 0 else 1`. -/
noncomputable def calorie_cv_of (cals : List ℚ) : ℝ :=
  if 0 < listMean cals then
    Real.sqrt ((npVariance cals : ℚ)) / ((listMean cals : ℚ) : ℝ)
  else 1

/-- Line 166: `stability_score = max(0, 1 - calorie_cv)`. -/
noncomputable def stability_score (cals : List ℚ) : ℝ :=
  max 0 (1 - calorie_cv_of cals)

/-- Lines 191-198: clamp the new estimate to within 15 percent of the
previously persisted TDEE (when that is truthy), appending the
`smoothed_change` factor when the clamp fires. -/
def smoothed_tdee (prev : Option ℚ) (estimated_tdee : ℚ)
    (factors : List String) : ℚ × List String :=
  if optFalsy prev then (estimated_tdee, factors)
  else
    let old := prev.getD 0
    let max_change := old * (15/100)
    let tdee_diff := estimated_tdee - old
    if max_change < |tdee_diff| then
      (old + (if 0 < tdee_diff then max_change else -max_change),
       factors ++ ["smoothed_change"])
    else (estimated_tdee, factors)

/-- `weight_confidence > 0.7` on a possibly-NaN confidence (NaN compares
false in Python). -/
def optGtQ (o : Option ℚ) (t : ℚ) : Bool :=
  match o with
  | none => false
  | some q => t < q

/-- Branch 1 (lines 101-112): insufficient total history. -/
noncomputable def tdee_insufficient_data (u : User)
    (weight_entries : List WeightEntry) : TDEECalculation :=
  let current_weight :=
    match weight_entries.getLast? with
    | some e => e.weight
    | none => 70
  { estimated_tdee := calculate_traditional_tdee u current_weight
    confidence := some ((3 : ℝ)/10)
    method := "traditional"
    factors := ["insufficient_data"]
    adjustment_reason := "Datos insuficientes, usando calculo tradicional" }

/-- Branch 2 (lines 124-134): insufficient valid logged days in the
analyzed window. -/
noncomputable def tdee_insufficient_valid (u : User)
    (recent_weights : List WeightEntry) : TDEECalculation :=
  let current_weight :=
    match recent_weights.getLast? with
    | some e => e.weight
    | none => 70
  { estimated_tdee := calculate_traditional_tdee u current_weight
    confidence := some ((4 : ℝ)/10)
    method := "traditional_fallback"
    factors := ["insufficient_valid_days"]
    adjustment_reason := "Pocos dias con datos validos" }

/-- Branch 3 (lines 136-206): the adaptive energy-balance estimate.
The Spanish rationale strings elide the code's interpolation of the
numeric trend, which no claim concerns. -/
noncomputable def tdee_adaptive_branch (u : User)
    (recent_stats : List DailyStats)
    (recent_weights : List WeightEntry) : TDEECalculation :=
  let weight_trend := (analyze_weight_trend recent_weights).1
  let weight_confidence := (analyze_weight_trend recent_weights).2
  let valid_days := valid_days_of recent_stats
  let cals := valid_days.map (·.consumed_calories)
  let avg_calories := listMean cals
  let estimated_tdee := adaptive_raw_tdee avg_calories valid_days.length weight_trend
  let logging_consistency : ℚ := (valid_days.length : ℚ) / (recent_stats.length : ℚ)
  let confidence : Option ℝ :=
    weight_confidence.map (fun wc =>
      min ((wc : ℝ) * (4/10) + (logging_consistency : ℝ) * (3/10)
            + stability_score cals * (3/10)) 1)
  let factors :=
    (if optGtQ weight_confidence (7/10) then ["strong_weight_trend"] else []) ++
    (if 8/10 < logging_consistency then ["consistent_logging"] else []) ++
    (if |weight_trend| < 1/10 then ["stable_weight"] else []) ++
    (if calorie_cv_of cals < 1/5 then ["consistent_intake"] else [])
  let adjustment_reason :=
    if 2/10 < |weight_trend| then
      if 0 < weight_trend then "Ganando peso, aumentando TDEE"
      else "Perdiendo peso, aumentando TDEE"
    else "Peso estable, TDEE basado en balance energetico"
  let smoothed := smoothed_tdee u.estimated_tdee estimated_tdee factors
  { estimated_tdee := (pyRound smoothed.1 : ℚ)
    confidence := confidence
    method := "adaptive"
    factors := smoothed.2
    adjustment_reason := adjustment_reason }

/-- calculate_adaptive_tdee (lines 97-206): branch selection over data
sufficiency. -/
noncomputable def calculate_adaptive_tdee (u : User)
    (daily_stats : List DailyStats)
    (weight_entries : List WeightEntry) : TDEECalculation :=
  if daily_stats.length < min_data_days then
    tdee_insufficient_data u weight_entries
  else
    let recent_stats := takeLastN 30 daily_stats
    let recent_weights := takeLastN 30 weight_entries
    if (valid_days_of recent_stats).length < min_data_days then
      tdee_insufficient_valid u recent_weights
    else
      tdee_adaptive_branch u recent_stats recent_weights

/-! ## Goal translator (calculate_adaptive_calories, lines 208-227) -/

/-- Lines 211-218: `goal_adjustments.get(user.goal, 0)`. -/
def goal_adjustment (goal : Option String) : ℚ :=
  match goal with
  | none => 0
  | some g =>
    if g = "lose_weight" then -500
    else if g = "maintain" then 0
    else if g = "gain_weight" then 300
    else if g = "gain_muscle" then 200
    else 0

/-- calculate_adaptive_calories: goal offset then safety clamp then
rounding. -/
def calculate_adaptive_calories (u : User) (estimated_tdee : ℚ) : ℚ :=
  let adjustment := goal_adjustment u.goal
  let adaptive_calories := estimated_tdee + adjustment
  let min_calories := max 1200 (estimated_tdee * (7/10))
  let max_calories := estimated_tdee * (13/10)
  let clamped := max min_calories (min adaptive_calories max_calories)
  (pyRound clamped : ℚ)

/-! ## Update gate (should_update_goals / update_user_goals, 229-273) -/

/-- `confidence < self.confidence_threshold` on a possibly-NaN
confidence; NaN compares false. -/
noncomputable def conf_below_threshold (confidence : Option ℝ) : Bool :=
  match confidence with
  | none => false
  | some c => @decide (c < confidence_threshold) (Classical.propDecidable _)

/-- should_update_goals (lines 229-244). -/
noncomputable def should_update_goals (u : User) (new_tdee : ℚ)
    (confidence : Option ℝ) : Bool :=
  if conf_below_threshold confidence then false
  else if optFalsy u.estimated_tdee then true
  else
    let old := u.estimated_tdee.getD 0
    let tdee_diff_pct := |new_tdee - old| / old
    decide (5/100 < tdee_diff_pct)

/-- update_user_goals (lines 246-273), as a pure state transformer on
the User row; the database commit and `effective_date` are the caller's
side effects. -/
noncomputable def update_user_goals (u : User) (tdee_calc : TDEECalculation) :
    User × Option AdaptiveGoalsUpdate :=
  if should_update_goals u tdee_calc.estimated_tdee tdee_calc.confidence = false then
    (u, none)
  else
    let new_calories := calculate_adaptive_calories u tdee_calc.estimated_tdee
    let u1 : User :=
      { u with estimated_tdee := some tdee_calc.estimated_tdee
               tdee_confidence := tdee_calc.confidence
               adaptive_calories := some new_calories }
    let u2 : User :=
      if optFalsy u1.target_calories
          || decide (|u1.target_calories.getD 0 - pyOr u1.adaptive_calories 0| < 50) then
        { u1 with target_calories := some new_calories }
      else u1
    (u2, some { new_tdee := tdee_calc.estimated_tdee
                new_target_calories := new_calories
                confidence := tdee_calc.confidence
                adjustment_reason := tdee_calc.adjustment_reason })

/-! ## Spec-side reading for the trend window claim -/

/-- The spec's reading of the §4.3 trend source: the §4.2 estimator fit
over the entire window of the most recent 30 weight observations (the
code instead lets the estimator's default 14-observation window apply
inside that slice). -/
def spec_trend_over_last30 (weight_entries : List WeightEntry) : ℚ × Option ℚ :=
  analyze_weight_trend (takeLastN 30 weight_entries) 30

/-! ## Concrete fixtures used by witnesses and counterexamples -/

/-- A profile with no recorded attributes at all. -/
def uBlank : User :=
  { age := none, height := none, gender := none, activity_level := none,
    goal := none, estimated_tdee := none, tdee_confidence := none,
    adaptive_calories := none, target_calories := none }

/-- The end-to-end scenario-1 profile: 30-year-old male, 175 cm,
moderate activity. -/
def uMale : User :=
  { uBlank with
    age := some 30
    height := some 175
    gender := some "male"
    activity_level := some "moderate" }

/-- A profile whose goal is gaining weight. -/
def uGain : User := { uBlank with goal := some "gain_weight" }

/-- A profile with a persisted TDEE of 2010 kcal. -/
def uPrev : User := { uBlank with estimated_tdee := some 2010 }

/-- A maintenance profile whose persisted adaptive calories and manual
target agree at 2000 kcal, with a persisted TDEE of 2000. -/
def uSynced : User :=
  { uBlank with
    goal := some "maintain"
    estimated_tdee := some 2000
    adaptive_calories := some 2000
    target_calories := some 2000 }

/-- `n` daily records of `c` consumed calories. -/
def mkStats (n : ℕ) (c : ℚ) : List DailyStats := List.replicate n ⟨0, c⟩

/-- Two weight observations one index apart losing 1/14 kg, i.e. a
perfectly linear 0.5 kg/week downward trend. -/
def wsDown : List WeightEntry := [⟨0, 80⟩, ⟨1, 1119/14⟩]

/-- Two weight observations with identical weights. -/
def wsFlat : List WeightEntry := [⟨0, 70⟩, ⟨1, 70⟩]

/-- Fifteen weight observations: one at 100 kg followed by fourteen at a
steady 70 kg. -/
def wsStep : List WeightEntry :=
  [⟨0, 100⟩, ⟨1, 70⟩, ⟨2, 70⟩, ⟨3, 70⟩, ⟨4, 70⟩, ⟨5, 70⟩, ⟨6, 70⟩,
   ⟨7, 70⟩, ⟨8, 70⟩, ⟨9, 70⟩, ⟨10, 70⟩, ⟨11, 70⟩, ⟨12, 70⟩, ⟨13, 70⟩,
   ⟨14, 70⟩]

/-- A high-confidence adaptive calculation proposing 2000 kcal. -/
noncomputable def tcCold : TDEECalculation :=
  { estimated_tdee := 2000, confidence := some ((9 : ℝ)/10),
    method := "adaptive", factors := [], adjustment_reason := "" }

/-- A high-confidence adaptive calculation proposing 2500 kcal. -/
noncomputable def tcNew : TDEECalculation :=
  { estimated_tdee := 2500, confidence := some ((9 : ℝ)/10),
    method := "adaptive", factors := [], adjustment_reason := "" }
section PyRoundLemmas

theorem floor_le_pyRound (q : ℚ) : ⌊q⌋ ≤ pyRound q := by
  simp only [pyRound]
  split_ifs <;> omega

theorem pyRound_le_floor_add_one (q : ℚ) : pyRound q ≤ ⌊q⌋ + 1 := by
  simp only [pyRound]
  split_ifs <;> omega

theorem pyRound_le (q : ℚ) : (pyRound q : ℚ) ≤ q + 1/2 := by
  have hf := Int.floor_le q
  have hf' := Int.lt_floor_add_one q
  simp only [pyRound]
  split_ifs with h1 h2 h3 <;> push_cast <;> linarith

theorem le_pyRound (q : ℚ) : q - 1/2 ≤ (pyRound q : ℚ) := by
  have hf := Int.floor_le q
  have hf' := Int.lt_floor_add_one q
  simp only [pyRound]
  split_ifs with h1 h2 h3 <;> push_cast <;> linarith

theorem abs_pyRound_sub (q : ℚ) : |(pyRound q : ℚ) - q| ≤ 1/2 := by
  rw [abs_le]
  constructor <;> [linarith [le_pyRound q]; linarith [pyRound_le q]]

theorem intCast_le_pyRound (m : ℤ) (q : ℚ) (h : (m : ℚ) ≤ q) :
    (m : ℚ) ≤ (pyRound q : ℚ) := by
  have h1 : m ≤ ⌊q⌋ := Int.le_floor.2 h
  have h2 := floor_le_pyRound q
  exact_mod_cast le_trans h1 h2

end PyRoundLemmas

section TakeLastLemmas

theorem length_takeLastN (n : ℕ) (l : List α) :
    (takeLastN n l).length = min n l.length := by
  simp [takeLastN]
  omega

theorem takeLastN_takeLastN (a b : ℕ) (l : List α) :
    takeLastN a (takeLastN b l) = takeLastN (min a b) l := by
  simp only [takeLastN, List.drop_drop, List.length_drop]
  congr 1
  omega

theorem takeLastN_of_le {n : ℕ} {l : List α} (h : l.length ≤ n) :
    takeLastN n l = l := by
  simp [takeLastN, Nat.sub_eq_zero_of_le h]

theorem getLast?_drop_of_lt {l : List α} {k : ℕ} (h : k < l.length) :
    (l.drop k).getLast? = l.getLast? := by
  induction l generalizing k with
  | nil => simp at h
  | cons a t ih =>
    cases k with
    | zero => rfl
    | succ k =>
      simp only [List.length_cons, Nat.succ_lt_succ_iff] at h
      have ht : t ≠ [] := by
        intro he
        rw [he] at h
        simp at h
      rw [List.drop_succ_cons, ih h]
      obtain ⟨b, t2, rfl⟩ := List.exists_cons_of_ne_nil ht
      simp [List.getLast?_cons_cons]

theorem getLast?_takeLastN {n : ℕ} (hn : 1 ≤ n) (l : List α) :
    (takeLastN n l).getLast? = l.getLast? := by
  rcases l with _ | ⟨a, t⟩
  · simp [takeLastN]
  · exact getLast?_drop_of_lt (by simp; omega)

theorem mem_takeLastN {a : α} {n : ℕ} {l : List α}
    (h : a ∈ takeLastN n l) : a ∈ l :=
  List.mem_of_mem_drop h

end TakeLastLemmas

section BranchLemmas

theorem calc_eq_insufficient_data (u : User) (ds : List DailyStats)
    (ws : List WeightEntry) (h : ds.length < min_data_days) :
    calculate_adaptive_tdee u ds ws = tdee_insufficient_data u ws := by
  simp only [calculate_adaptive_tdee, if_pos h]

theorem calc_eq_insufficient_valid (u : User) (ds : List DailyStats)
    (ws : List WeightEntry) (h1 : ¬ ds.length < min_data_days)
    (h2 : (valid_days_of (takeLastN 30 ds)).length < min_data_days) :
    calculate_adaptive_tdee u ds ws = tdee_insufficient_valid u (takeLastN 30 ws) := by
  simp only [calculate_adaptive_tdee, if_neg h1, if_pos h2]

theorem calc_eq_adaptive (u : User) (ds : List DailyStats)
    (ws : List WeightEntry) (h1 : ¬ ds.length < min_data_days)
    (h2 : ¬ (valid_days_of (takeLastN 30 ds)).length < min_data_days) :
    calculate_adaptive_tdee u ds ws
      = tdee_adaptive_branch u (takeLastN 30 ds) (takeLastN 30 ws) := by
  simp only [calculate_adaptive_tdee, if_neg h1, if_neg h2]

theorem method_eq_adaptive_iff (u : User) (ds : List DailyStats)
    (ws : List WeightEntry) :
    (calculate_adaptive_tdee u ds ws).method = "adaptive" ↔
      ¬ ds.length < min_data_days ∧
      ¬ (valid_days_of (takeLastN 30 ds)).length < min_data_days := by
  by_cases h1 : ds.length < min_data_days
  · rw [calc_eq_insufficient_data u ds ws h1]
    have hm : (tdee_insufficient_data u ws).method = "traditional" := rfl
    rw [hm]
    constructor
    · intro h
      exact absurd h (by decide)
    · intro hc
      exact absurd h1 hc.1
  · by_cases h2 : (valid_days_of (takeLastN 30 ds)).length < min_data_days
    · rw [calc_eq_insufficient_valid u ds ws h1 h2]
      have hm : (tdee_insufficient_valid u (takeLastN 30 ws)).method
          = "traditional_fallback" := rfl
      rw [hm]
      constructor
      · intro h
        exact absurd h (by decide)
      · intro hc
        exact absurd h2 hc.2
    · rw [calc_eq_adaptive u ds ws h1 h2]
      have hm : (tdee_adaptive_branch u (takeLastN 30 ds) (takeLastN 30 ws)).method
          = "adaptive" := rfl
      rw [hm]
      exact iff_of_true rfl ⟨h1, h2⟩

theorem analyze_weight_trend_window (l : List WeightEntry) :
    analyze_weight_trend (takeLastN 30 l) = analyze_weight_trend (takeLastN 14 l) := by
  have e1 : takeLastN 14 (takeLastN 30 l) = takeLastN 14 l := by
    rw [takeLastN_takeLastN]
    norm_num
  have e2 : takeLastN 14 (takeLastN 14 l) = takeLastN 14 l := by
    rw [takeLastN_takeLastN]
    norm_num
  by_cases h : l.length < 2
  · have h1 : (takeLastN 30 l).length < 2 := by rw [length_takeLastN]; omega
    have h2 : (takeLastN 14 l).length < 2 := by rw [length_takeLastN]; omega
    simp only [analyze_weight_trend, if_pos h1, if_pos h2]
  · have h1 : ¬ (takeLastN 30 l).length < 2 := by rw [length_takeLastN]; omega
    have h2 : ¬ (takeLastN 14 l).length < 2 := by rw [length_takeLastN]; omega
    simp only [analyze_weight_trend, if_neg h1, if_neg h2, e1, e2]

end BranchLemmas

section AuxLemmas

theorem list_sum_const {w : ℚ} :
    ∀ (xs : List ℚ), (∀ x ∈ xs, x = w) → xs.sum = xs.length * w
  | [], _ => by simp
  | a :: t, h => by
    rw [List.sum_cons, list_sum_const t (fun x hx => h x (List.mem_cons_of_mem a hx)),
      h a (List.mem_cons_self a t), List.length_cons]
    push_cast
    ring

theorem listMean_const {xs : List ℚ} {w : ℚ} (h : ∀ x ∈ xs, x = w)
    (hne : xs ≠ []) : listMean xs = w := by
  have hlen : (xs.length : ℚ) ≠ 0 := by
    simpa using fun hc => hne (List.length_eq_zero.1 hc)
  rw [listMean, list_sum_const xs h, mul_comm, mul_div_assoc, div_self hlen, mul_one]

theorem smoothed_tdee_fst_factors (p : Option ℚ) (e : ℚ) (f g : List String) :
    (smoothed_tdee p e f).1 = (smoothed_tdee p e g).1 := by
  simp only [smoothed_tdee]
  split_ifs <;> rfl

theorem smoothed_tdee_falsy {p : Option ℚ} (h : optFalsy p = true) (e : ℚ)
    (f : List String) : smoothed_tdee p e f = (e, f) := by
  simp [smoothed_tdee, h]

theorem smoothed_tdee_close {prev : ℚ} (hnz : prev ≠ 0) (e : ℚ)
    (f : List String) :
    |(smoothed_tdee (some prev) e f).1 - prev| ≤ |prev| * (15/100) := by
  have hf : optFalsy (some prev) = false := by simp [optFalsy, hnz]
  simp only [smoothed_tdee, hf, Bool.false_eq_true, if_false, Option.getD_some]
  split_ifs with h1 h2
  · rw [add_sub_cancel_left, abs_mul, abs_of_nonneg (by norm_num : (0:ℚ) ≤ 15/100)]
  · rw [add_sub_cancel_left, abs_neg, abs_mul,
      abs_of_nonneg (by norm_num : (0:ℚ) ≤ 15/100)]
  · push_neg at h1
    calc |e - prev| ≤ prev * (15/100) := h1
    _ ≤ |prev * (15/100)| := le_abs_self _
    _ = |prev| * (15/100) := by rw [abs_mul]; norm_num

theorem adaptive_branch_est (u : User) (rs : List DailyStats)
    (rw2 : List WeightEntry) :
    (tdee_adaptive_branch u rs rw2).estimated_tdee
      = (pyRound (smoothed_tdee u.estimated_tdee
          (adaptive_raw_tdee
            (listMean ((valid_days_of rs).map (·.consumed_calories)))
            (valid_days_of rs).length
            (analyze_weight_trend rw2).1) []).1 : ℚ) := by
  simp only [tdee_adaptive_branch]
  rw [smoothed_tdee_fst_factors _ _ _ []]

theorem calorie_target_ge_1200 (u : User) (t : ℚ) :
    (1200 : ℚ) ≤ calculate_adaptive_calories u t := by
  simp only [calculate_adaptive_calories]
  have h := intCast_le_pyRound 1200
    (max (max 1200 (t * (7/10))) (min (t + goal_adjustment u.goal) (t * (13/10))))
    (by push_cast; exact le_trans (le_max_left _ _) (le_max_left _ _))
  exact_mod_cast h

end AuxLemmas

/-! ## Claims -/

/-- C9: should_update_goals is a deterministic pure function of the
persisted TDEE, the new TDEE and the confidence; it returns false
whenever confidence is strictly below the 0.7 threshold, true whenever
confidence meets the threshold and there is no (truthy) prior persisted
TDEE, and otherwise true exactly when the relative change exceeds 5
percent. -/
theorem should_update_goals_spec (u : User) (new_tdee : ℚ) (c : ℝ) :
    (c < confidence_threshold →
      should_update_goals u new_tdee (some c) = false) ∧
    (confidence_threshold ≤ c → optFalsy u.estimated_tdee = true →
      should_update_goals u new_tdee (some c) = true) ∧
    (confidence_threshold ≤ c → ∀ old : ℚ, u.estimated_tdee = some old →
      old ≠ 0 →
      (should_update_goals u new_tdee (some c) = true ↔
        5/100 < |new_tdee - old| / old)) ∧
    (∀ u2 : User, u2.estimated_tdee = u.estimated_tdee →
      should_update_goals u2 new_tdee (some c)
        = should_update_goals u new_tdee (some c)) := by
  have hbt : conf_below_threshold (some c) = true ↔ c < confidence_threshold := by
    simp [conf_below_threshold]
  refine ⟨?_, ?_, ?_, ?_⟩
  · intro h
    simp only [should_update_goals, if_pos (hbt.2 h)]
  · intro h hf
    have hb : ¬ conf_below_threshold (some c) = true := fun hh =>
      absurd (hbt.1 hh) (not_lt.2 h)
    simp only [should_update_goals, if_neg hb, if_pos hf]
  · intro h old hold hnz
    have hb : ¬ conf_below_threshold (some c) = true := fun hh =>
      absurd (hbt.1 hh) (not_lt.2 h)
    have hf : ¬ optFalsy (some old) = true := by
      simp [optFalsy, hnz]
    simp only [should_update_goals, if_neg hb, hold, Option.getD_some, if_neg hf,
      decide_eq_true_eq]
  · intro u2 h2
    simp only [should_update_goals, h2]

/-- C9 witness: concrete runs of the three clauses of the update gate. -/
theorem should_update_goals_spec_witness :
    ((1 : ℝ)/2 < confidence_threshold ∧
      should_update_goals uBlank 2000 (some ((1 : ℝ)/2)) = false) ∧
    (confidence_threshold ≤ (9 : ℝ)/10 ∧ optFalsy uBlank.estimated_tdee = true ∧
      should_update_goals uBlank 2000 (some ((9 : ℝ)/10)) = true) ∧
    (uSynced.estimated_tdee = some 2000 ∧ (2000 : ℚ) ≠ 0 ∧
      (should_update_goals uSynced 2500 (some ((9 : ℝ)/10)) = true ↔
        5/100 < |(2500 : ℚ) - 2000| / 2000)) :=
  ⟨⟨by norm_num [confidence_threshold],
    (should_update_goals_spec uBlank 2000 (1/2)).1
      (by norm_num [confidence_threshold])⟩,
   ⟨by norm_num [confidence_threshold], rfl,
    (should_update_goals_spec uBlank 2000 (9/10)).2.1
      (by norm_num [confidence_threshold]) rfl⟩,
   ⟨rfl, by norm_num,
    (should_update_goals_spec uSynced 2500 (9/10)).2.2.1
      (by norm_num [confidence_threshold]) 2000 rfl (by norm_num)⟩⟩

/-- C6: fewer than 14 total intake records selects the traditional
method with confidence 0.3 and factor insufficient_data; at least 14
records but fewer than 14 valid days in the analyzed window selects
traditional_fallback with confidence 0.4 and factor
insufficient_valid_days; with fewer than 14 valid days the method is
never adaptive. -/
theorem insufficient_data_branches (u : User) (ds : List DailyStats)
    (ws : List WeightEntry) :
    (ds.length < min_data_days →
      (calculate_adaptive_tdee u ds ws).method = "traditional" ∧
      (calculate_adaptive_tdee u ds ws).confidence = some ((3 : ℝ)/10) ∧
      (calculate_adaptive_tdee u ds ws).factors = ["insufficient_data"]) ∧
    (min_data_days ≤ ds.length →
      (valid_days_of (takeLastN 30 ds)).length < min_data_days →
      (calculate_adaptive_tdee u ds ws).method = "traditional_fallback" ∧
      (calculate_adaptive_tdee u ds ws).confidence = some ((4 : ℝ)/10) ∧
      (calculate_adaptive_tdee u ds ws).factors = ["insufficient_valid_days"]) ∧
    ((valid_days_of (takeLastN 30 ds)).length < min_data_days →
      (calculate_adaptive_tdee u ds ws).method ≠ "adaptive") := by
  refine ⟨?_, ?_, ?_⟩
  · intro h
    rw [calc_eq_insufficient_data u ds ws h]
    exact ⟨rfl, rfl, rfl⟩
  · intro h1 h2
    rw [calc_eq_insufficient_valid u ds ws (not_lt.2 h1) h2]
    exact ⟨rfl, rfl, rfl⟩
  · intro h hadapt
    exact ((method_eq_adaptive_iff u ds ws).1 hadapt).2 h

/-- C6 witness: an empty history takes the traditional branch, and 14
unlogged (zero-calorie) records take the traditional_fallback branch. -/
theorem insufficient_data_branches_witness :
    (([] : List DailyStats).length < min_data_days ∧
      (calculate_adaptive_tdee uBlank [] []).method = "traditional" ∧
      (calculate_adaptive_tdee uBlank [] []).confidence = some ((3 : ℝ)/10) ∧
      (calculate_adaptive_tdee uBlank [] []).factors = ["insufficient_data"]) ∧
    (min_data_days ≤ (mkStats 14 0).length ∧
      (valid_days_of (takeLastN 30 (mkStats 14 0))).length < min_data_days ∧
      (calculate_adaptive_tdee uBlank (mkStats 14 0) []).method
        = "traditional_fallback" ∧
      (calculate_adaptive_tdee uBlank (mkStats 14 0) []).confidence
        = some ((4 : ℝ)/10) ∧
      (calculate_adaptive_tdee uBlank (mkStats 14 0) []).factors
        = ["insufficient_valid_days"]) :=
  ⟨⟨by decide, (insufficient_data_branches uBlank [] []).1 (by decide)⟩,
   ⟨by decide, by decide,
    (insufficient_data_branches uBlank (mkStats 14 0) []).2.1 (by decide) (by decide)⟩⟩

/-- C10: in both insufficient-data branches the current body weight
defaults to 70 kg when there are no weight observations, and is the most
recent observation's weight otherwise. -/
theorem fallback_default_weight (u : User) (ds : List DailyStats)
    (ws : List WeightEntry) :
    (ds.length < min_data_days → ws = [] →
      (calculate_adaptive_tdee u ds ws).estimated_tdee
        = calculate_traditional_tdee u 70) ∧
    (ds.length < min_data_days → ∀ e : WeightEntry, ws.getLast? = some e →
      (calculate_adaptive_tdee u ds ws).estimated_tdee
        = calculate_traditional_tdee u e.weight) ∧
    (min_data_days ≤ ds.length →
      (valid_days_of (takeLastN 30 ds)).length < min_data_days → ws = [] →
      (calculate_adaptive_tdee u ds ws).estimated_tdee
        = calculate_traditional_tdee u 70) ∧
    (min_data_days ≤ ds.length →
      (valid_days_of (takeLastN 30 ds)).length < min_data_days →
      ∀ e : WeightEntry, ws.getLast? = some e →
      (calculate_adaptive_tdee u ds ws).estimated_tdee
        = calculate_traditional_tdee u e.weight) := by
  refine ⟨?_, ?_, ?_, ?_⟩
  · intro h hnil
    subst hnil
    rw [calc_eq_insufficient_data u ds [] h]
    rfl
  · intro h e he
    rw [calc_eq_insufficient_data u ds ws h]
    simp only [tdee_insufficient_data, he]
  · intro h1 h2 hnil
    subst hnil
    rw [calc_eq_insufficient_valid u ds [] (not_lt.2 h1) h2]
    rfl
  · intro h1 h2 e he
    rw [calc_eq_insufficient_valid u ds ws (not_lt.2 h1) h2]
    have hlast : (takeLastN 30 ws).getLast? = some e := by
      rw [getLast?_takeLastN (by norm_num)]
      exact he
    simp only [tdee_insufficient_valid, hlast]

/-- C10 witness: concrete runs of the default and the nonempty case in
the first fallback branch. -/
theorem fallback_default_weight_witness :
    (([] : List DailyStats).length < min_data_days ∧
      (calculate_adaptive_tdee uMale [] []).estimated_tdee
        = calculate_traditional_tdee uMale 70) ∧
    ([(⟨0, 80⟩ : WeightEntry)].getLast? = some ⟨0, 80⟩ ∧
      (calculate_adaptive_tdee uMale [] [⟨0, 80⟩]).estimated_tdee
        = calculate_traditional_tdee uMale (80 : ℚ)) :=
  ⟨⟨by decide, (fallback_default_weight uMale [] []).1 (by decide) rfl⟩,
   ⟨rfl, (fallback_default_weight uMale [] [⟨0, 80⟩]).2.1 (by decide) ⟨0, 80⟩ rfl⟩⟩

theorem pyRound_eq_of_lt_half {q : ℚ} {z : ℤ} (hz : ⌊q⌋ = z)
    (h : q - z < 1/2) : pyRound q = z := by
  simp only [pyRound, hz, if_pos h]

theorem pyRound_eq_of_gt_half {q : ℚ} {z : ℤ} (hz : ⌊q⌋ = z)
    (h : 1/2 < q - z) : pyRound q = z + 1 := by
  simp only [pyRound, hz, if_neg (by linarith : ¬ q - (z : ℚ) < 1/2), if_pos h]

theorem pyRound_eq_of_half_odd {q : ℚ} {z : ℤ} (hz : ⌊q⌋ = z)
    (h : q - z = 1/2) (hodd : ¬ z % 2 = 0) : pyRound q = z + 1 := by
  simp only [pyRound, hz, if_neg (by linarith : ¬ q - (z : ℚ) < 1/2),
    if_neg (by linarith : ¬ (1:ℚ)/2 < q - z), if_neg hodd]

/-- C1 counterexample: the returned calorie target can exceed
1.3 times TDEE — for a small TDEE the 1200 kcal floor wins (the claimed
interval is then empty), and even near the boundary the final rounding
can push the result above 1.3 times TDEE. -/
theorem adaptive_calories_outside_claimed_interval :
    calculate_adaptive_calories uGain 100 = 1200 ∧
    ¬ ((1200 : ℚ) ≤ 100 * (13/10)) ∧
    calculate_adaptive_calories uGain (1981/2) = 1288 ∧
    ¬ (calculate_adaptive_calories uGain (1981/2) ≤ (1981/2) * (13/10)) := by
  have hg : goal_adjustment uGain.goal = 300 := by decide
  have hp1 : pyRound ((1200 : ℚ)) = 1200 :=
    pyRound_eq_of_lt_half (by norm_num [Int.floor_eq_iff]) (by norm_num)
  have hp2 : pyRound ((25753 : ℚ)/20) = 1288 := by
    have h12 : (1288 : ℤ) = 1287 + 1 := by norm_num
    rw [h12]
    exact pyRound_eq_of_gt_half (by norm_num [Int.floor_eq_iff]) (by norm_num)
  have h1 : calculate_adaptive_calories uGain 100 = 1200 := by
    simp only [calculate_adaptive_calories, hg]
    norm_num [max_def, min_def, hp1]
  have h2 : calculate_adaptive_calories uGain (1981/2) = 1288 := by
    simp only [calculate_adaptive_calories, hg]
    norm_num [max_def, min_def]
    rw [hp2]
    norm_num
  refine ⟨h1, by norm_num, h2, ?_⟩
  rw [h2]
  norm_num

/-- C1 amended: for every TDEE greater than 0 and every goal, the
returned target lies within
[max(1200, 0.7*TDEE), max(1200, 1.3*TDEE) + 1/2]: the lower bound is as
claimed, but the upper bound must allow the 1200 kcal floor to dominate
and the final rounding to add up to half a calorie. -/
theorem adaptive_calories_amended_bounds (u : User) (t : ℚ) (ht : 0 < t) :
    max 1200 (t * (7/10)) ≤ calculate_adaptive_calories u t ∧
    calculate_adaptive_calories u t ≤ max 1200 (t * (13/10)) + 1/2 := by
  have hadj : goal_adjustment u.goal = -500 ∨ goal_adjustment u.goal = 0 ∨
      goal_adjustment u.goal = 300 ∨ goal_adjustment u.goal = 200 := by
    unfold goal_adjustment
    rcases u.goal with _ | g
    · tauto
    · dsimp only
      split_ifs <;> tauto
  have hadj_lb : (-500 : ℚ) ≤ goal_adjustment u.goal := by
    rcases hadj with h | h | h | h <;> rw [h] <;> norm_num
  simp only [calculate_adaptive_calories]
  set adj := goal_adjustment u.goal with hadjdef
  set c := max (max 1200 (t * (7/10))) (min (t + adj) (t * (13/10))) with hc
  have hlb : max (1200 : ℚ) (t * (7/10)) ≤ c := by
    rw [hc]
    exact le_max_left _ _
  constructor
  · rcases le_or_lt (t * (7/10)) 1200 with hlo | hlo
    · rw [max_eq_left hlo]
      have h2 : (1200 : ℚ) ≤ c := le_trans (by rw [max_eq_left hlo]) hlb
      have h3 := intCast_le_pyRound 1200 c (by push_cast; exact h2)
      exact_mod_cast h3
    · rw [max_eq_right hlo.le]
      have hmin : t * (7/10) + 1/2 ≤ min (t + adj) (t * (13/10)) := by
        apply le_min
        · linarith
        · linarith
      have hcge : t * (7/10) + 1/2 ≤ c := by
        rw [hc]
        exact le_trans hmin (le_max_right _ _)
      linarith [le_pyRound c]
  · have hcle : c ≤ max 1200 (t * (13/10)) := by
      rw [hc]
      apply max_le
      · apply max_le
        · exact le_max_left _ _
        · exact le_trans (by linarith) (le_max_right (1200 : ℚ) (t * (13/10)))
      · exact le_trans (min_le_right _ _) (le_max_right _ _)
    linarith [pyRound_le c]

/-- C1 witness: the amended bounds at TDEE 990.5 with the gain_weight
goal. -/
theorem adaptive_calories_amended_bounds_witness :
    (0 : ℚ) < 1981/2 ∧
    (max 1200 ((1981/2 : ℚ) * (7/10)) ≤ calculate_adaptive_calories uGain (1981/2) ∧
      calculate_adaptive_calories uGain (1981/2)
        ≤ max 1200 ((1981/2 : ℚ) * (13/10)) + 1/2) :=
  ⟨by norm_num, adaptive_calories_amended_bounds uGain (1981/2) (by norm_num)⟩

/-- C4 counterexample: for two observations of identical weight the
trend confidence is the NaN of `np.corrcoef` (embedded as `none`), not
the sentinel 0 the claim describes. -/
theorem equal_weights_confidence_is_nan :
    (analyze_weight_trend wsFlat).2 ≠ some 0 ∧
    (analyze_weight_trend wsFlat).2 = none := by
  have h : (analyze_weight_trend wsFlat).2 = none := by
    norm_num [analyze_weight_trend, wsFlat, takeLastN, corrcoef_sq, ssum,
      listMean, polyfit_slope, List.insertionSort, List.orderedInsert,
      List.range_succ, List.zip]
  exact ⟨by rw [h]; simp, h⟩

/-- C4 amended: the estimator is total, and for a window of two or more
equal weights the correlation is undefined: the returned confidence is
the NaN `none` (the sentinel 0 only covers windows of fewer than two
observations); the zero-mean guard does resolve the stability score to
the sentinel 0. -/
theorem trend_nan_and_stability_sentinel :
    (∀ (l : List WeightEntry) (w : ℚ), 2 ≤ l.length →
      (∀ e ∈ l, e.weight = w) → (analyze_weight_trend l).2 = none) ∧
    (∀ cals : List ℚ, listMean cals = 0 → stability_score cals = 0) := by
  constructor
  · intro l w hlen hall
    have hl2 : ¬ l.length < 2 := by omega
    have hdf : ¬ (takeLastN 14 l).length < 2 := by
      rw [length_takeLastN]
      omega
    simp only [analyze_weight_trend, if_neg hl2, if_neg hdf]
    have hslen : 1 < (List.insertionSort (fun a b => a.date ≤ b.date)
        (takeLastN 14 l)).length := by
      rw [List.length_insertionSort]
      omega
    rw [if_pos hslen]
    set sorted := List.insertionSort (fun a b => a.date ≤ b.date)
      (takeLastN 14 l) with hsorted
    set y := sorted.map (·.weight) with hy
    have hally : ∀ q ∈ y, q = w := by
      intro q hq
      obtain ⟨e, he, rfl⟩ := List.mem_map.1 hq
      exact hall e (mem_takeLastN
        ((List.perm_insertionSort (fun a b => a.date ≤ b.date) (takeLastN 14 l)).mem_iff.1 he))
    have hyne : y ≠ [] := by
      rw [hy, ← List.length_pos]
      simp only [List.length_map]
      omega
    have hmean : listMean y = w := listMean_const hally hyne
    have hsyy : ssum y y = 0 := by
      apply List.sum_eq_zero
      intro x hx
      obtain ⟨p, hp, rfl⟩ := List.mem_map.1 hx
      obtain ⟨p1, p2⟩ := p
      obtain ⟨hm1, hm2⟩ := List.of_mem_zip hp
      simp only [hmean, hally p1 hm1, hally p2 hm2, sub_self, mul_zero]
    simp [corrcoef_sq, hsyy]
  · intro cals h
    simp [stability_score, calorie_cv_of, h]

/-- C4 witness: the amended statement at a flat two-entry window and at
a list of calories with zero mean. -/
theorem trend_nan_and_stability_sentinel_witness :
    (2 ≤ wsFlat.length ∧ (∀ e ∈ wsFlat, e.weight = 70) ∧
      (analyze_weight_trend wsFlat).2 = none) ∧
    (listMean [2, -2] = 0 ∧ stability_score [2, -2] = 0) :=
  ⟨⟨by decide, by decide,
    (trend_nan_and_stability_sentinel).1 wsFlat 70 (by decide) (by decide)⟩,
   ⟨by norm_num [listMean],
    (trend_nan_and_stability_sentinel).2 [2, -2] (by norm_num [listMean])⟩⟩

/-- C3 counterexample: the traditional fallback branch returns the raw
Mifflin-St Jeor TDEE 2555.5625 without rounding, so the returned
estimated_tdee is not integer-valued in that branch. -/
theorem traditional_estimate_not_integer :
    (calculate_adaptive_tdee uMale [] []).estimated_tdee = 40889/16 ∧
    (calculate_adaptive_tdee uMale [] []).method = "traditional" ∧
    ¬ ∃ z : ℤ, (40889/16 : ℚ) = (z : ℚ) := by
  refine ⟨?_, rfl, ?_⟩
  · rw [calc_eq_insufficient_data uMale [] [] (by decide)]
    have hmul : get_activity_multiplier (strOrDefault uMale.activity_level "moderate")
        = 155/100 := rfl
    have hbmr : calculate_bmr uMale 70 = 10 * 70 + (25/4) * 175 - 5 * 30 + 5 := rfl
    show calculate_traditional_tdee uMale 70 = 40889/16
    simp only [calculate_traditional_tdee]
    rw [hbmr, hmul]
    norm_num
  · rintro ⟨z, hz⟩
    have h16 : (40889 : ℚ) = z * 16 := by
      field_simp at hz
      linarith
    have hint : (40889 : ℤ) = z * 16 := by exact_mod_cast h16
    omega

/-- C3 amended: the estimated_tdee is integer-valued (rounded) exactly
in the adaptive branch; the two traditional branches return the
unrounded traditional TDEE. -/
theorem adaptive_estimate_is_integer (u : User) (ds : List DailyStats)
    (ws : List WeightEntry)
    (h : (calculate_adaptive_tdee u ds ws).method = "adaptive") :
    ∃ z : ℤ, (calculate_adaptive_tdee u ds ws).estimated_tdee = (z : ℚ) := by
  rw [method_eq_adaptive_iff] at h
  rw [calc_eq_adaptive u ds ws h.1 h.2]
  exact ⟨_, rfl⟩

/-- C3 witness: a concrete adaptive run returns an integer estimate. -/
theorem adaptive_estimate_is_integer_witness :
    (calculate_adaptive_tdee uBlank (mkStats 14 3000) []).method = "adaptive" ∧
    ∃ z : ℤ, (calculate_adaptive_tdee uBlank (mkStats 14 3000) []).estimated_tdee
      = (z : ℚ) :=
  ⟨by decide, adaptive_estimate_is_integer uBlank (mkStats 14 3000) [] (by decide)⟩

theorem pyRound_smoothed_close {prev : ℚ} (hnz : prev ≠ 0) (e : ℚ)
    (f : List String) :
    |((pyRound (smoothed_tdee (some prev) e f).1 : ℤ) : ℚ) - prev|
      ≤ |prev| * (15/100) + 1/2 := by
  have h1 := smoothed_tdee_close hnz e f
  have h2 := abs_pyRound_sub (smoothed_tdee (some prev) e f).1
  calc |((pyRound (smoothed_tdee (some prev) e f).1 : ℤ) : ℚ) - prev|
      ≤ |((pyRound (smoothed_tdee (some prev) e f).1 : ℤ) : ℚ)
          - (smoothed_tdee (some prev) e f).1|
        + |(smoothed_tdee (some prev) e f).1 - prev| := abs_sub_le _ _ _
    _ ≤ |prev| * (15/100) + 1/2 := by linarith

theorem adaptive_branch_factors (u : User) (rs : List DailyStats)
    (rw2 : List WeightEntry) :
    ∃ f0 : List String, (tdee_adaptive_branch u rs rw2).factors
      = (smoothed_tdee u.estimated_tdee
          (adaptive_raw_tdee
            (listMean ((valid_days_of rs).map (·.consumed_calories)))
            (valid_days_of rs).length
            (analyze_weight_trend rw2).1) f0).2 :=
  ⟨_, rfl⟩

theorem smoothed_tdee_mem {prev : ℚ} (hnz : prev ≠ 0) {e : ℚ}
    (f : List String) (hc : prev * (15/100) < |e - prev|) :
    "smoothed_change" ∈ (smoothed_tdee (some prev) e f).2 := by
  have hf : optFalsy (some prev) = false := by simp [optFalsy, hnz]
  simp only [smoothed_tdee, hf, Bool.false_eq_true, if_false, Option.getD_some,
    if_pos hc]
  simp

/-- C5 amended: in the adaptive branch with a truthy previously
persisted TDEE, the returned estimate satisfies
|new - prev| <= 0.15*|prev| + 1/2 (the final rounding can exceed the
15 percent clamp by up to half a calorie), and whenever the clamp fires
the factor list contains smoothed_change. -/
theorem smoothing_bound_amended (u : User) (ds : List DailyStats)
    (ws : List WeightEntry) (prev : ℚ) (hprev : u.estimated_tdee = some prev)
    (hnz : prev ≠ 0)
    (hm : (calculate_adaptive_tdee u ds ws).method = "adaptive") :
    |(calculate_adaptive_tdee u ds ws).estimated_tdee - prev|
        ≤ |prev| * (15/100) + 1/2 ∧
    (prev * (15/100) <
        |adaptive_raw_tdee
            (listMean ((valid_days_of (takeLastN 30 ds)).map (·.consumed_calories)))
            (valid_days_of (takeLastN 30 ds)).length
            (analyze_weight_trend (takeLastN 30 ws)).1 - prev| →
      "smoothed_change" ∈ (calculate_adaptive_tdee u ds ws).factors) := by
  rw [method_eq_adaptive_iff] at hm
  rw [calc_eq_adaptive u ds ws hm.1 hm.2]
  constructor
  · rw [adaptive_branch_est, hprev]
    exact pyRound_smoothed_close hnz _ _
  · intro hc
    obtain ⟨f0, hf⟩ := adaptive_branch_factors u (takeLastN 30 ds) (takeLastN 30 ws)
    rw [hf, hprev]
    exact smoothed_tdee_mem hnz f0 hc

/-- C5 counterexample: with persisted TDEE 2010 and a raw estimate of
3000, the clamp lands on 2311.5 and the final banker's rounding returns
2312, which exceeds the claimed 15 percent envelope (301.5) by half a
calorie. -/
theorem smoothing_bound_exceeded_by_rounding :
    uPrev.estimated_tdee = some 2010 ∧
    (calculate_adaptive_tdee uPrev (mkStats 14 3000) []).method = "adaptive" ∧
    (calculate_adaptive_tdee uPrev (mkStats 14 3000) []).estimated_tdee = 2312 ∧
    ¬ (|(calculate_adaptive_tdee uPrev (mkStats 14 3000) []).estimated_tdee
        - 2010| ≤ (2010 : ℚ) * (15/100)) := by
  have hest : (calculate_adaptive_tdee uPrev (mkStats 14 3000) []).estimated_tdee
      = 2312 := by
    rw [calc_eq_adaptive uPrev (mkStats 14 3000) [] (by decide) (by decide),
      adaptive_branch_est]
    have hv : valid_days_of (takeLastN 30 (mkStats 14 3000)) = mkStats 14 3000 := by
      decide
    rw [hv]
    have hmean : listMean ((mkStats 14 3000).map (·.consumed_calories)) = 3000 :=
      listMean_const (by decide) (by decide)
    rw [hmean]
    have hlen : (mkStats 14 3000).length = 14 := rfl
    rw [hlen]
    have hw1 : (analyze_weight_trend (takeLastN 30 ([] : List WeightEntry))).1 = 0 :=
      rfl
    rw [hw1]
    have hraw : adaptive_raw_tdee 3000 (14 : ℕ) 0 = 3000 := by
      norm_num [adaptive_raw_tdee]
    rw [hraw]
    have hsm : (smoothed_tdee uPrev.estimated_tdee 3000 []).1 = 4623/2 := by
      norm_num [uPrev, uBlank, smoothed_tdee, optFalsy]
    rw [hsm]
    have hfl : (⌊(4623 : ℚ)/2⌋ : ℤ) = 2311 := by norm_num [Int.floor_eq_iff]
    rw [pyRound_eq_of_half_odd hfl (by norm_num) (by decide)]
    norm_num
  refine ⟨rfl, by decide, hest, ?_⟩
  rw [hest]
  norm_num

/-- C5 witness: the amended bound at the same concrete adaptive run
with persisted TDEE 2010. -/
theorem smoothing_bound_amended_witness :
    uPrev.estimated_tdee = some 2010 ∧ (2010 : ℚ) ≠ 0 ∧
    (calculate_adaptive_tdee uPrev (mkStats 14 3000) []).method = "adaptive" ∧
    (|(calculate_adaptive_tdee uPrev (mkStats 14 3000) []).estimated_tdee - 2010|
        ≤ |(2010 : ℚ)| * (15/100) + 1/2 ∧
      ((2010 : ℚ) * (15/100) <
          |adaptive_raw_tdee
              (listMean ((valid_days_of (takeLastN 30 (mkStats 14 3000))).map
                (·.consumed_calories)))
              (valid_days_of (takeLastN 30 (mkStats 14 3000))).length
              (analyze_weight_trend (takeLastN 30 ([] : List WeightEntry))).1
            - 2010| →
        "smoothed_change" ∈
          (calculate_adaptive_tdee uPrev (mkStats 14 3000) []).factors)) :=
  ⟨rfl, by norm_num, by decide,
   smoothing_bound_amended uPrev (mkStats 14 3000) [] 2010 rfl (by norm_num)
     (by decide)⟩

/-- C8 amended: in the adaptive branch with no truthy previous TDEE the
returned estimate is round(avg_calories + (weekly_trend*(n/7)*7700)/n);
in the 20-day scenario (2200 kcal/day average, -0.5 kg/week trend) the
formula yields an adjustment of -550, hence estimated_tdee = 1650 (not
the 1925 the claim derives from the same formula), with
method adaptive. -/
theorem adaptive_formula_and_scenario :
    (∀ (u : User) (ds : List DailyStats) (ws : List WeightEntry),
      (calculate_adaptive_tdee u ds ws).method = "adaptive" →
      optFalsy u.estimated_tdee = true →
      (calculate_adaptive_tdee u ds ws).estimated_tdee
        = ((pyRound (adaptive_raw_tdee
            (listMean ((valid_days_of (takeLastN 30 ds)).map (·.consumed_calories)))
            (valid_days_of (takeLastN 30 ds)).length
            (analyze_weight_trend (takeLastN 30 ws)).1) : ℤ) : ℚ)) ∧
    ((calculate_adaptive_tdee uBlank (mkStats 20 2200) wsDown).method
        = "adaptive" ∧
      listMean ((valid_days_of (takeLastN 30 (mkStats 20 2200))).map
        (·.consumed_calories)) = 2200 ∧
      (analyze_weight_trend (takeLastN 30 wsDown)).1 = -(1/2) ∧
      (calculate_adaptive_tdee uBlank (mkStats 20 2200) wsDown).estimated_tdee
        = 1650) := by
  have hpart1 : ∀ (u : User) (ds : List DailyStats) (ws : List WeightEntry),
      (calculate_adaptive_tdee u ds ws).method = "adaptive" →
      optFalsy u.estimated_tdee = true →
      (calculate_adaptive_tdee u ds ws).estimated_tdee
        = ((pyRound (adaptive_raw_tdee
            (listMean ((valid_days_of (takeLastN 30 ds)).map (·.consumed_calories)))
            (valid_days_of (takeLastN 30 ds)).length
            (analyze_weight_trend (takeLastN 30 ws)).1) : ℤ) : ℚ) := by
    intro u ds ws hm hfal
    rw [method_eq_adaptive_iff] at hm
    rw [calc_eq_adaptive u ds ws hm.1 hm.2, adaptive_branch_est,
      smoothed_tdee_falsy hfal]
  have hv : valid_days_of (takeLastN 30 (mkStats 20 2200)) = mkStats 20 2200 := by
    decide
  have hmean : listMean ((mkStats 20 2200).map (·.consumed_calories)) = 2200 :=
    listMean_const (by decide) (by decide)
  have htr : (analyze_weight_trend (takeLastN 30 wsDown)).1 = -(1/2) := by
    have h30 : takeLastN 30 wsDown = wsDown := takeLastN_of_le (by decide)
    rw [h30]
    norm_num [analyze_weight_trend, wsDown, takeLastN, polyfit_slope, ssum,
      listMean, List.insertionSort, List.orderedInsert, List.range_succ,
      List.zip]
  refine ⟨hpart1, by decide, ?_, htr, ?_⟩
  · rw [hv]
    exact hmean
  · rw [hpart1 uBlank (mkStats 20 2200) wsDown (by decide) rfl, hv, hmean]
    have hlen : (mkStats 20 2200).length = 20 := rfl
    rw [hlen, htr]
    have hraw : adaptive_raw_tdee 2200 (20 : ℕ) (-(1/2)) = 1650 := by
      norm_num [adaptive_raw_tdee]
    rw [hraw]
    have hfl : (⌊(1650 : ℚ)⌋ : ℤ) = 1650 := by norm_num [Int.floor_eq_iff]
    rw [pyRound_eq_of_lt_half hfl (by norm_num)]
    norm_num

/-- C8 counterexample: the claim's own scenario (20 valid days averaging
2200 kcal, trend -0.5 kg/week) returns 1650 kcal, not approximately
1925: the formula's adjustment is -550, not the -275 the claim asserts. -/
theorem scenario_two_gives_1650 :
    (calculate_adaptive_tdee uBlank (mkStats 20 2200) wsDown).method
      = "adaptive" ∧
    listMean ((valid_days_of (takeLastN 30 (mkStats 20 2200))).map
      (·.consumed_calories)) = 2200 ∧
    (analyze_weight_trend (takeLastN 30 wsDown)).1 = -(1/2) ∧
    (calculate_adaptive_tdee uBlank (mkStats 20 2200) wsDown).estimated_tdee
      = 1650 ∧
    ¬ (|(calculate_adaptive_tdee uBlank (mkStats 20 2200) wsDown).estimated_tdee
        - 1925| ≤ 100) := by
  have hv : valid_days_of (takeLastN 30 (mkStats 20 2200)) = mkStats 20 2200 := by
    decide
  have hmean : listMean ((mkStats 20 2200).map (·.consumed_calories)) = 2200 :=
    listMean_const (by decide) (by decide)
  have htr : (analyze_weight_trend (takeLastN 30 wsDown)).1 = -(1/2) := by
    have h30 : takeLastN 30 wsDown = wsDown := takeLastN_of_le (by decide)
    rw [h30]
    norm_num [analyze_weight_trend, wsDown, takeLastN, polyfit_slope, ssum,
      listMean, List.insertionSort, List.orderedInsert, List.range_succ,
      List.zip]
  have hest : (calculate_adaptive_tdee uBlank (mkStats 20 2200) wsDown).estimated_tdee
      = 1650 := by
    rw [calc_eq_adaptive uBlank (mkStats 20 2200) wsDown (by decide) (by decide),
      adaptive_branch_est,
      smoothed_tdee_falsy (show optFalsy uBlank.estimated_tdee = true from rfl),
      hv, hmean]
    have hlen : (mkStats 20 2200).length = 20 := rfl
    rw [hlen, htr]
    have hraw : adaptive_raw_tdee 2200 (20 : ℕ) (-(1/2)) = 1650 := by
      norm_num [adaptive_raw_tdee]
    rw [hraw]
    have hfl : (⌊(1650 : ℚ)⌋ : ℤ) = 1650 := by norm_num [Int.floor_eq_iff]
    rw [pyRound_eq_of_lt_half hfl (by norm_num)]
    norm_num
  refine ⟨by decide, by rw [hv]; exact hmean, htr, hest, ?_⟩
  rw [hest]
  norm_num

/-- C8 witness: the amended formula at a concrete adaptive run with no
prior TDEE. -/
theorem adaptive_formula_and_scenario_witness :
    (calculate_adaptive_tdee uBlank (mkStats 14 3000) []).method = "adaptive" ∧
    optFalsy uBlank.estimated_tdee = true ∧
    (calculate_adaptive_tdee uBlank (mkStats 14 3000) []).estimated_tdee
      = ((pyRound (adaptive_raw_tdee
          (listMean ((valid_days_of (takeLastN 30 (mkStats 14 3000))).map
            (·.consumed_calories)))
          (valid_days_of (takeLastN 30 (mkStats 14 3000))).length
          (analyze_weight_trend (takeLastN 30 ([] : List WeightEntry))).1) : ℤ) : ℚ) :=
  ⟨by decide, rfl,
   (adaptive_formula_and_scenario).1 uBlank (mkStats 14 3000) [] (by decide) rfl⟩

/-- C7 counterexample: with 15 weight observations (100 kg then fourteen
steady 70 kg) the adaptive estimate is 2000: the estimator's default
14-observation window ignores the 100 kg outlier, whereas a fit over the
most recent 30 observations (the spec's reading) would give a -5.25
kg/week trend and an estimate of -3775. -/
theorem trend_window_not_thirty :
    (calculate_adaptive_tdee uBlank (mkStats 14 2000) wsStep).method
      = "adaptive" ∧
    (calculate_adaptive_tdee uBlank (mkStats 14 2000) wsStep).estimated_tdee
      = 2000 ∧
    (spec_trend_over_last30 wsStep).1 = -(21/4) ∧
    ((pyRound (adaptive_raw_tdee
        (listMean ((valid_days_of (takeLastN 30 (mkStats 14 2000))).map
          (·.consumed_calories)))
        (valid_days_of (takeLastN 30 (mkStats 14 2000))).length
        (spec_trend_over_last30 wsStep).1) : ℤ) : ℚ) = -3775 ∧
    (2000 : ℚ) ≠ -3775 := by
  have hv : valid_days_of (takeLastN 30 (mkStats 14 2000)) = mkStats 14 2000 := by
    decide
  have hmean : listMean ((mkStats 14 2000).map (·.consumed_calories)) = 2000 :=
    listMean_const (by decide) (by decide)
  have hlen : (mkStats 14 2000).length = 14 := rfl
  have h30 : takeLastN 30 wsStep = wsStep := takeLastN_of_le (by decide)
  have htr0 : (analyze_weight_trend (takeLastN 30 wsStep)).1 = 0 := by
    rw [h30]
    norm_num [analyze_weight_trend, wsStep, takeLastN, polyfit_slope, ssum,
      listMean, List.insertionSort, List.orderedInsert, List.range_succ,
      List.zip]
  have hspec : (spec_trend_over_last30 wsStep).1 = -(21/4) := by
    rw [spec_trend_over_last30, h30]
    norm_num [analyze_weight_trend, wsStep, takeLastN, polyfit_slope, ssum,
      listMean, List.insertionSort, List.orderedInsert, List.range_succ,
      List.zip]
  have hest : (calculate_adaptive_tdee uBlank (mkStats 14 2000) wsStep).estimated_tdee
      = 2000 := by
    rw [calc_eq_adaptive uBlank (mkStats 14 2000) wsStep (by decide) (by decide),
      adaptive_branch_est,
      smoothed_tdee_falsy (show optFalsy uBlank.estimated_tdee = true from rfl),
      hv, hmean, hlen, htr0]
    have hraw : adaptive_raw_tdee 2000 (14 : ℕ) 0 = 2000 := by
      norm_num [adaptive_raw_tdee]
    rw [hraw]
    have hfl : (⌊(2000 : ℚ)⌋ : ℤ) = 2000 := by norm_num [Int.floor_eq_iff]
    rw [pyRound_eq_of_lt_half hfl (by norm_num)]
    norm_num
  refine ⟨by decide, hest, hspec, ?_, by norm_num⟩
  rw [hv, hmean, hlen, hspec]
  have hraw : adaptive_raw_tdee 2000 (14 : ℕ) (-(21/4)) = -3775 := by
    norm_num [adaptive_raw_tdee]
  rw [hraw]
  have hfl : (⌊(-3775 : ℚ)⌋ : ℤ) = -3775 := by norm_num [Int.floor_eq_iff]
  rw [pyRound_eq_of_lt_half hfl (by norm_num)]
  norm_num

/-- C7 amended: the weight trend and its confidence are computed by the
§4.2 estimator with its default 14-observation window applied inside the
last-30 slice, so the whole calculation depends on at most the most
recent 14 weight observations. -/
theorem tdee_depends_on_last_fourteen_weights (u : User) (ds : List DailyStats)
    (ws : List WeightEntry) :
    calculate_adaptive_tdee u ds ws
      = calculate_adaptive_tdee u ds (takeLastN 14 ws) := by
  have e30 : takeLastN 30 (takeLastN 14 ws) = takeLastN 14 ws := by
    rw [takeLastN_takeLastN]
    norm_num
  by_cases h1 : ds.length < min_data_days
  · rw [calc_eq_insufficient_data u ds ws h1,
      calc_eq_insufficient_data u ds (takeLastN 14 ws) h1]
    unfold tdee_insufficient_data
    rw [getLast?_takeLastN (by norm_num) ws]
  · by_cases h2 : (valid_days_of (takeLastN 30 ds)).length < min_data_days
    · rw [calc_eq_insufficient_valid u ds ws h1 h2,
        calc_eq_insufficient_valid u ds (takeLastN 14 ws) h1 h2]
      unfold tdee_insufficient_valid
      rw [e30, getLast?_takeLastN (by norm_num) ws,
        getLast?_takeLastN (by norm_num) ws]
    · rw [calc_eq_adaptive u ds ws h1 h2,
        calc_eq_adaptive u ds (takeLastN 14 ws) h1 h2]
      unfold tdee_adaptive_branch
      rw [e30, analyze_weight_trend_window ws]

theorem calorie_target_ne_zero (u : User) (t : ℚ) :
    calculate_adaptive_calories u t ≠ 0 := by
  have h := calorie_target_ge_1200 u t
  intro h0
  rw [h0] at h
  norm_num at h

theorem update_target_eq (u : User) (tc : TDEECalculation)
    (h : should_update_goals u tc.estimated_tdee tc.confidence = true) :
    (update_user_goals u tc).1.target_calories =
      (if optFalsy u.target_calories
          || decide (|u.target_calories.getD 0
              - calculate_adaptive_calories u tc.estimated_tdee| < 50) then
        some (calculate_adaptive_calories u tc.estimated_tdee)
      else u.target_calories) := by
  have hne : ¬ should_update_goals u tc.estimated_tdee tc.confidence = false := by
    rw [h]
    simp
  have hpyor : pyOr (some (calculate_adaptive_calories u tc.estimated_tdee)) 0
      = calculate_adaptive_calories u tc.estimated_tdee := by
    simp [pyOr, calorie_target_ne_zero u tc.estimated_tdee]
  simp only [update_user_goals, if_neg hne]
  rw [apply_ite (fun x : User => x.target_calories)]
  dsimp only
  rw [hpyor]

/-- C2 amended: when the update gate accepts, the user-visible
target_calories is overwritten exactly when the user has no truthy
target or their current target is within 50 kcal of the NEWLY computed
adaptive-calories value (the code reads user.adaptive_calories after
having just assigned the new value to it), not the previously persisted
adaptive value. -/
theorem target_overwrite_condition_amended (u : User) (tc : TDEECalculation)
    (h : should_update_goals u tc.estimated_tdee tc.confidence = true) :
    (update_user_goals u tc).1.target_calories =
      (if optFalsy u.target_calories
          || decide (|u.target_calories.getD 0
              - calculate_adaptive_calories u tc.estimated_tdee| < 50) then
        some (calculate_adaptive_calories u tc.estimated_tdee)
      else u.target_calories) :=
  update_target_eq u tc h

/-- C2 witness: a cold-start user with no manual target gets the new
target written. -/
theorem target_overwrite_condition_amended_witness :
    should_update_goals uBlank tcCold.estimated_tdee tcCold.confidence = true ∧
    (update_user_goals uBlank tcCold).1.target_calories =
      (if optFalsy uBlank.target_calories
          || decide (|uBlank.target_calories.getD 0
              - calculate_adaptive_calories uBlank tcCold.estimated_tdee| < 50) then
        some (calculate_adaptive_calories uBlank tcCold.estimated_tdee)
      else uBlank.target_calories) := by
  have hc : conf_below_threshold tcCold.confidence = false := by
    simp only [tcCold, conf_below_threshold]
    rw [decide_eq_false_iff_not]
    norm_num [confidence_threshold]
  have hgate : should_update_goals uBlank tcCold.estimated_tdee tcCold.confidence
      = true := by
    simp [should_update_goals, hc, uBlank, optFalsy]
  exact ⟨hgate, target_overwrite_condition_amended uBlank tcCold hgate⟩

/-- C2 counterexample: a user whose manual target equals the previously
persisted adaptive value (difference 0 < 50, so the claim demands an
overwrite) keeps the old target because the code compares against the
newly computed 2500 instead. -/
theorem target_overwrite_uses_new_adaptive_value :
    (update_user_goals uSynced tcNew).2.isSome = true ∧
    uSynced.adaptive_calories = some 2000 ∧
    uSynced.target_calories = some 2000 ∧
    |(2000 : ℚ) - 2000| < 50 ∧
    calculate_adaptive_calories uSynced tcNew.estimated_tdee = 2500 ∧
    (update_user_goals uSynced tcNew).1.target_calories = some 2000 ∧
    some (2000 : ℚ) ≠ some (2500 : ℚ) := by
  have hc : conf_below_threshold tcNew.confidence = false := by
    simp only [tcNew, conf_below_threshold]
    rw [decide_eq_false_iff_not]
    norm_num [confidence_threshold]
  have hgate : should_update_goals uSynced tcNew.estimated_tdee tcNew.confidence
      = true := by
    simp only [should_update_goals, hc, Bool.false_eq_true, if_false]
    have hf : optFalsy uSynced.estimated_tdee = false := rfl
    rw [hf]
    simp only [Bool.false_eq_true, if_false, decide_eq_true_eq]
    show 5/100 < |tcNew.estimated_tdee - (2000 : ℚ)| / 2000
    show 5/100 < |(2500 : ℚ) - 2000| / 2000
    norm_num
  have hne : ¬ should_update_goals uSynced tcNew.estimated_tdee tcNew.confidence
      = false := by
    rw [hgate]
    simp
  have hcal : calculate_adaptive_calories uSynced tcNew.estimated_tdee = 2500 := by
    have hg : goal_adjustment uSynced.goal = 0 := by decide
    simp only [calculate_adaptive_calories, hg, tcNew]
    norm_num [max_def, min_def]
    have hfl : (⌊(2500 : ℚ)⌋ : ℤ) = 2500 := by norm_num [Int.floor_eq_iff]
    rw [pyRound_eq_of_lt_half hfl (by norm_num)]
    norm_num
  refine ⟨?_, rfl, rfl, by norm_num, hcal, ?_, by norm_num⟩
  · simp only [update_user_goals, if_neg hne]
    rfl
  · rw [update_target_eq uSynced tcNew hgate, hcal]
    have h1 : optFalsy uSynced.target_calories = false := rfl
    have h2 : (decide (|uSynced.target_calories.getD 0 - (2500 : ℚ)| < 50))
        = false := by
      rw [decide_eq_false_iff_not]
      show ¬ |(2000 : ℚ) - 2500| < 50
      norm_num
    rw [h1, h2]
    rfl
